import Mathlib

/-!
Verification of the skyeye GCI controller subsystem against its design
document. Each Go source function used by a claim is shallowly embedded as an
executable Lean definition; machine integers become Nat, wall-clock times
become Nat ticks ordered as Go time.Time is, and effectful code becomes an
explicit trace of actions.
-/

namespace Skyeye

/-! ### Voice packet decoding (package audio, newVoicePacketFrom) -/

/-- binary.BigEndian.Uint16(b[i:i+2]) over a byte slice modelled as List Nat. -/
def be16 (b : List Nat) (i : Nat) : Nat :=
  b.getD i 0 * 256 + b.getD (i + 1) 0

/-- binary.BigEndian.Uint64(b[i:i+8]): the raw 8 bytes as one number (the
source reinterprets these bits as a float64 frequency; the bits are kept). -/
def be64 (b : List Nat) (i : Nat) : Nat :=
  ((((((b.getD i 0 * 256 + b.getD (i + 1) 0) * 256 + b.getD (i + 2) 0) * 256
    + b.getD (i + 3) 0) * 256 + b.getD (i + 4) 0) * 256 + b.getD (i + 5) 0) * 256
    + b.getD (i + 6) 0) * 256 + b.getD (i + 7) 0

/-- srs.Frequency: frequency bits, modulation byte and encryption byte. -/
structure SRSFrequency where
  FrequencyBits : Nat
  Modulation : Nat
  Encryption : Nat
  deriving Repr, DecidableEq

/-- The fields of audio.VoicePacket assigned before the frequency-segment loop
of newVoicePacketFrom runs, together with the two offsets the loop uses. -/
structure VoicePacketHead where
  PacketLength : Nat
  AudioSegmentLength : Nat
  FrequenciesSegmentLength : Nat
  AudioLength : Nat
  AudioBytes : List Nat
  frequenciesOffset : Nat
  fixedSegmentOffset : Nat
  deriving Repr, DecidableEq

/-- newVoicePacketFrom up to (but not including) the frequency-segment loop,
translated statement by statement. The Go struct literal at the top of the
function leaves p.AudioLength at its zero value, and the offset computations
run before p.AudioLength is assigned, so they read AudioLength = 0; the
assignment `p.AudioLength = ...Uint16(b[6:8])` only happens afterwards. -/
def newVoicePacketHead (b : List Nat) : VoicePacketHead :=
  let packetLength := be16 b 0
  let audioSegmentLength := be16 b 2
  let frequenciesSegmentLength := be16 b 4
  let audioLengthZeroValue := 0
  let audioSegmentOffset := 6
  let audioBytesOffset := audioSegmentOffset + 2
  let frequenciesOffset := audioBytesOffset + audioLengthZeroValue
  let fixedSegmentOffset := frequenciesOffset + frequenciesSegmentLength
  let audioLength := be16 b audioSegmentOffset
  let audioBytes := (b.drop audioBytesOffset).take (frequenciesOffset - audioBytesOffset)
  { PacketLength := packetLength
    AudioSegmentLength := audioSegmentLength
    FrequenciesSegmentLength := frequenciesSegmentLength
    AudioLength := audioLength
    AudioBytes := audioBytes
    frequenciesOffset := frequenciesOffset
    fixedSegmentOffset := fixedSegmentOffset }

/-- State of the frequency-segment loop: the loop index i and the
p.Frequencies accumulator. -/
structure FreqLoopState where
  i : Nat
  Frequencies : List SRSFrequency
  deriving Repr, DecidableEq

/-- The loop condition `i <= frequenciesOffset + int(p.FrequenciesSegmentLength)`. -/
def freqLoopGuard (frequenciesOffset segLen : Nat) (s : FreqLoopState) : Bool :=
  s.i ≤ frequenciesOffset + segLen

/-- One iteration of the loop body: read the frequency record at i and append
it. The source for-statement has an empty post statement, so i is unchanged. -/
def freqLoopStep (b : List Nat) (s : FreqLoopState) : FreqLoopState :=
  { i := s.i
    Frequencies := s.Frequencies ++
      [{ FrequencyBits := be64 b s.i
         Modulation := b.getD (s.i + 8) 0
         Encryption := b.getD (s.i + 9) 0 }] }

/-! ### Controller state and the Run loop (package controller) -/

/-- coalitions.Coalition. -/
inductive Coalition where
  | red
  | blue
  deriving Repr, DecidableEq

/-- The configuration and schedule fields of the controller struct that the
Run loop reads (trackers and handles are owned by code outside the loop). -/
structure ControllerState where
  coalition : Coalition
  enableAutomaticPicture : Bool
  pictureBroadcastInterval : Nat
  pictureBroadcastDeadline : Nat
  wasLastPictureClean : Bool
  enableThreatMonitoring : Bool
  threatMonitoringCooldown : Nat
  threatMonitoringRequiresSRS : Bool
  deriving Repr, DecidableEq

/-- One entry of simpleradio Frequencies(): the Run loop only reads the
rf.Frequency field, kept abstract as a Nat key. -/
structure RadioFrequency where
  Frequency : Nat
  Modulation : Nat
  deriving Repr, DecidableEq

/-- The observable actions of controller.Run, in the order the source performs
them: sink assignment, callback (de)registration (true = attached handler,
false = nil), the sunrise broadcast, ticker creation, the three surveillance
broadcasts, and returning from Run. -/
inductive Action where
  | assignSink
  | setFadedCallback (attached : Bool)
  | setRemovedCallback (attached : Bool)
  | setStartedCallback (attached : Bool)
  | emitSunrise (frequencies : List Nat)
  | startTicker (seconds : Nat)
  | broadcastMerges
  | broadcastThreats
  | broadcastPicture
  | ret
  deriving Repr, DecidableEq

/-- True exactly for the sunrise broadcast action. -/
def Action.isSunrise : Action → Bool
  | .emitSunrise _ => true
  | _ => false

/-- The events controller.Run selects over: context cancellation and ticker
fires (carrying the wall clock time.Now() observes at that tick). -/
inductive Event where
  | cancel
  | tick (now : Nat)
  deriving Repr, DecidableEq

/-- The ticker.C branch of controller.Run (controller.go lines 147-153):
broadcastMerges, then broadcastThreats, then broadcastPicture exactly when
`c.enableAutomaticPicture && time.Now().After(c.pictureBroadcastDeadline)`;
Go time.Time.After is the strict order, modelled as deadline < now. -/
def tickActions (c : ControllerState) (now : Nat) : List Action :=
  Action.broadcastMerges :: Action.broadcastThreats ::
    (if c.enableAutomaticPicture && decide (c.pictureBroadcastDeadline < now)
      then [Action.broadcastPicture] else [])

/-- The select loop of controller.Run. The bodies of broadcastMerges,
broadcastThreats and broadcastPicture are outside the embedded lines; whatever
they do to the controller state is abstracted as the update upd applied after
each tick, so every theorem below holds for every such update. On ctx.Done()
the loop sets all three scope callbacks to nil and returns. -/
def runLoop (upd : ControllerState → Nat → ControllerState) :
    ControllerState → List Event → List Action
  | _, [] => []
  | _, Event.cancel :: _ =>
      [Action.setFadedCallback false, Action.setRemovedCallback false,
       Action.setStartedCallback false, Action.ret]
  | c, Event.tick now :: rest =>
      tickActions c now ++ runLoop upd (upd c now) rest

/-- broadcastSunrise (controller.go 157-163): the frequency list is built by
appending rf.Frequency for each rf ranged over srsClient.Frequencies(). -/
def sunriseFrequencies (rfs : List RadioFrequency) : List Nat :=
  rfs.foldl (fun acc rf => acc ++ [rf.Frequency]) []

/-- controller.Run (controller.go 127-155) as a trace: assign c.calls, attach
the faded and removed callbacks, broadcast sunrise, create the 15-second
ticker, then enter the select loop. -/
def runActions (upd : ControllerState → Nat → ControllerState)
    (c : ControllerState) (rfs : List RadioFrequency) (events : List Event) :
    List Action :=
  Action.assignSink ::
    Action.setFadedCallback true ::
      Action.setRemovedCallback true ::
        Action.emitSunrise (sunriseFrequencies rfs) ::
          Action.startTicker 15 ::
            runLoop upd c events

/-- A concrete controller configuration used to exhibit the picture-deadline
boundary behaviour. -/
def boundaryController : ControllerState :=
  { coalition := Coalition.blue
    enableAutomaticPicture := true
    pictureBroadcastInterval := 60
    pictureBroadcastDeadline := 100
    wasLastPictureClean := false
    enableThreatMonitoring := true
    threatMonitoringCooldown := 30
    threatMonitoringRequiresSRS := false }

/-! ### findCallsign (controller.go 168-182) -/

/-- The part of a trackfile the embedded code reads: the
IsLastKnownPointZero() predicate (true means the position is unknown). -/
structure Trackfile where
  isLastKnownPointZero : Bool
  deriving Repr, DecidableEq

/-- controller.findCallsign: queries scope.FindCallsign(callsign, coalition)
and returns (matched callsign, trackfile, ok). The scope is the function
find, the controller coalition is passed explicitly. -/
def findCallsign (find : String → Coalition → String × Option Trackfile)
    (coalition : Coalition) (callsign : String) :
    String × Option Trackfile × Bool :=
  let result := find callsign coalition
  match result.2 with
  | none => ("", none, false)
  | some trackfile =>
    if trackfile.isLastKnownPointZero then (result.1, some trackfile, false)
    else (result.1, some trackfile, true)

/-! ### Composer (package composer) -/

/-- composer.NaturalLanguageResponse. -/
structure NaturalLanguageResponse where
  Subtitle : String
  Speech : String
  deriving Repr, DecidableEq

/-- A bearing value as the composer receives it: its rendered degrees and
whether it is magnetic (bearings.Bearing is outside src/, so only the two
observations the embedded code makes of it are kept). -/
structure Bearing where
  degrees : Nat
  isMagnetic : Bool
  deriving Repr, DecidableEq

/-- brevity.Bullseye as consumed here: Bearing() and the integer part of
Distance().NauticalMiles(). -/
structure Bullseye where
  bearing : Bearing
  distanceNM : Nat
  deriving Repr, DecidableEq

/-- brevity.AlphaCheckResponse. -/
structure AlphaCheckResponse where
  Callsign : String
  Status : Bool
  Location : Bullseye
  deriving Repr, DecidableEq

/-- brevity.NegativeRadarContactResponse. -/
structure NegativeRadarContactResponse where
  Callsign : String
  deriving Repr, DecidableEq

/-- An opaque tactical group handed to ComposeGroup. -/
structure Group where
  id : Nat
  deriving Repr, DecidableEq

/-- brevity.ThreatCall. -/
structure ThreatCall where
  Group : Group
  Callsigns : List String
  deriving Repr, DecidableEq

/-- Log levels of the zerolog calls the embedded functions make. -/
inductive LogLevel where
  | error
  | info
  | debug
  deriving Repr, DecidableEq

/-- One log record. -/
structure LogEntry where
  level : LogLevel
  msg : String
  deriving Repr, DecidableEq

/-- The composer receiver. ComposeCallsigns, ComposeGroup and the two bearing
renderers (Bearing.String and PronounceBearing) live outside src/, so they are
fields: the embedded functions below are proved for every choice of them. -/
structure Composer where
  callsign : String
  ComposeCallsigns : List String → String
  ComposeGroup : Group → NaturalLanguageResponse
  bearingToString : Bearing → String
  pronounceBearing : Bearing → String

/-- fmt.Sprintf for a format string with string verbs: each %s is replaced by
the argument, every other character is copied verbatim. -/
def sprintfS : List Char → String → List Char
  | [], _ => []
  | '%' :: 's' :: rest, arg => arg.data ++ rest
  | ch :: rest, arg => ch :: sprintfS rest arg

/-- fmt.Sprintf(t, arg) for a single-%s template t. -/
def sprintf1 (t arg : String) : String := String.mk (sprintfS t.data arg)

/-- composer.ComposeAlphaCheckResponse (package composer, file with
ComposeAlphaCheckResponse). Result: the zerolog records emitted and the
response value. On Status, a non-magnetic bearing is logged at error level and
the response is built from the supplied location regardless. -/
def ComposeAlphaCheckResponse (c : Composer) (response : AlphaCheckResponse) :
    List LogEntry × NaturalLanguageResponse :=
  if response.Status then
    let logs :=
      if !response.Location.bearing.isMagnetic then
        [{ level := LogLevel.error
           msg := "bearing provided to ComposeAlphaCheckResponse should be magnetic" }]
      else []
    (logs,
      { Subtitle :=
          c.ComposeCallsigns [response.Callsign] ++ ", " ++
            c.ComposeCallsigns [c.callsign] ++ ", contact, alpha check bullseye " ++
            c.bearingToString response.Location.bearing ++ "/" ++
            toString response.Location.distanceNM
        Speech :=
          c.ComposeCallsigns [response.Callsign] ++ ", " ++
            c.ComposeCallsigns [c.callsign] ++ ", contact, alpha check bullseye " ++
            c.pronounceBearing response.Location.bearing ++ ", " ++
            toString response.Location.distanceNM })
  else
    let reply := response.Callsign ++ ", negative contact"
    ([], { Subtitle := reply, Speech := reply })

/-- The thirteen reply templates of ComposeNegativeRadarContactResponse
(composer/contact.go), verbatim. -/
def negativeRadarContactReplies : List String :=
  ["%s, negative radar contact. Double check your callsign.",
   "%s, negative radar contact. Check your callsign.",
   "%s, negative radar contact. Verify your callsign.",
   "%s, negative radar contact. Confirm your callsign.",
   "%s, negative radar contact. Send it again for me.",
   "%s, negative radar contact. I might have misheard your callsign.",
   "%s, negative radar contact. Is that the right callsign?",
   "%s, negative radar contact. Possible I misheard the callsign.",
   "%s, negative radar contact. No contact with that callsign on scope.",
   "%s, negative radar contact. Can\x27t find that callsign on scope.",
   "%s, negative radar contact. I don\x27t see that callsign on scope.",
   "%s, negative radar contact. I don\x27t have that callsign on scope.",
   "%s, negative radar contact. I do not have that callsign on scope."]

/-- composer.ComposeNegativeRadarContactResponse (composer/contact.go).
rand.IntN(len(replies)) returns a value in [0, len); the random draw is
modelled by reducing an arbitrary seed modulo the list length. -/
def ComposeNegativeRadarContactResponse (c : Composer)
    (response : NegativeRadarContactResponse) (seed : Nat) :
    NaturalLanguageResponse :=
  let replies := negativeRadarContactReplies
  let reply := sprintf1 (replies.getD (seed % replies.length) "")
    (c.ComposeCallsigns [response.Callsign])
  { Subtitle := reply, Speech := reply }

/-- Modelled from the spec: the HandleAlphaCheck request handler is not under
src/. Per the spec, on an ALPHA CHECK failure (no trackfile or unknown
position for the requester) the controller emits a negative-contact call for
the requester, rendered by ComposeNegativeRadarContactResponse. -/
def alphaCheckFailureReply (c : Composer) (callsign : String) (seed : Nat) :
    NaturalLanguageResponse :=
  ComposeNegativeRadarContactResponse c { Callsign := callsign } seed

/-- Modelled from the spec: the helper applyToFirstCharacter used by
ComposeThreatCall is not under src/; it transforms only the first character of
the string, leaving the remainder unchanged. -/
def applyToFirstCharacter (s : String) (f : Char → Char) : String :=
  match s.data with
  | [] => s
  | ch :: rest => String.mk (f ch :: rest)

/-- composer.ComposeThreatCall (composer/threat.go). -/
def ComposeThreatCall (c : Composer) (call : ThreatCall) :
    NaturalLanguageResponse :=
  let group := c.ComposeGroup call.Group
  let callsignList := c.ComposeCallsigns call.Callsigns
  { Subtitle := callsignList ++ ", " ++ applyToFirstCharacter group.Subtitle Char.toLower
    Speech := callsignList ++ ", " ++ group.Speech }

/-! ### Helper lemmas -/

/-- The frequency-segment loop body never changes the loop index. -/
theorem freqLoopStep_iterate_i (b : List Nat) (n : Nat) (s : FreqLoopState) :
    ((freqLoopStep b)^[n] s).i = s.i := by
  induction n generalizing s with
  | zero => rfl
  | succ n ih =>
    rw [Function.iterate_succ_apply, ih]
    rfl

/-- The fold in broadcastSunrise produces exactly the Frequency fields in
order. -/
theorem sunriseFrequencies_eq_map (rfs : List RadioFrequency) :
    sunriseFrequencies rfs = rfs.map fun rf => rf.Frequency := by
  have h : ∀ acc : List Nat,
      rfs.foldl (fun acc rf => acc ++ [rf.Frequency]) acc =
        acc ++ rfs.map fun rf => rf.Frequency := by
    induction rfs with
    | nil => intro acc; simp
    | cons hd tl ih => intro acc; simp [List.foldl, ih]
  simpa [sunriseFrequencies] using h []

/-- A surveillance tick never emits a sunrise broadcast. -/
theorem tickActions_sunrise_count (c : ControllerState) (now : Nat) :
    (tickActions c now).countP Action.isSunrise = 0 := by
  by_cases h : (c.enableAutomaticPicture && decide (c.pictureBroadcastDeadline < now)) = true <;>
    simp [tickActions, h, List.countP_cons, Action.isSunrise]

/-- The select loop never emits a sunrise broadcast. -/
theorem runLoop_sunrise_count (upd : ControllerState → Nat → ControllerState)
    (c : ControllerState) (events : List Event) :
    (runLoop upd c events).countP Action.isSunrise = 0 := by
  induction events generalizing c with
  | nil => rfl
  | cons e rest ih =>
    cases e with
    | cancel => rfl
    | tick now =>
      simp [runLoop, List.countP_append, ih, tickActions_sunrise_count]

/-- Each negative-radar-contact template consists of the %s verb followed by
", negative radar contact" and a variant-specific suffix. -/
theorem negContact_template_shape :
    ∀ t ∈ negativeRadarContactReplies, ∃ suffix : String,
      ∀ arg : String, sprintf1 t arg = arg ++ (", negative radar contact" ++ suffix) := by
  intro t ht
  fin_cases ht
  · exact ⟨". Double check your callsign.", fun arg => by cases arg with | mk d => rfl⟩
  · exact ⟨". Check your callsign.", fun arg => by cases arg with | mk d => rfl⟩
  · exact ⟨". Verify your callsign.", fun arg => by cases arg with | mk d => rfl⟩
  · exact ⟨". Confirm your callsign.", fun arg => by cases arg with | mk d => rfl⟩
  · exact ⟨". Send it again for me.", fun arg => by cases arg with | mk d => rfl⟩
  · exact ⟨". I might have misheard your callsign.", fun arg => by cases arg with | mk d => rfl⟩
  · exact ⟨". Is that the right callsign?", fun arg => by cases arg with | mk d => rfl⟩
  · exact ⟨". Possible I misheard the callsign.", fun arg => by cases arg with | mk d => rfl⟩
  · exact ⟨". No contact with that callsign on scope.", fun arg => by cases arg with | mk d => rfl⟩
  · exact ⟨". Can\x27t find that callsign on scope.", fun arg => by cases arg with | mk d => rfl⟩
  · exact ⟨". I don\x27t see that callsign on scope.", fun arg => by cases arg with | mk d => rfl⟩
  · exact ⟨". I don\x27t have that callsign on scope.", fun arg => by cases arg with | mk d => rfl⟩
  · exact ⟨". I do not have that callsign on scope.", fun arg => by cases arg with | mk d => rfl⟩

/-! ### Claim theorems -/

/-- C1: on every surveillance tick of the Run loop, the trace is
broadcastMerges first, broadcastThreats second, then a conditional picture
broadcast (empty or a single broadcastPicture) before the loop continues;
merges and threats are never skipped and never reordered. -/
theorem c1_surveillance_tick_order (upd : ControllerState → Nat → ControllerState)
    (c : ControllerState) (now : Nat) (rest : List Event) :
    ∃ pic : List Action, (pic = [] ∨ pic = [Action.broadcastPicture]) ∧
      runLoop upd c (Event.tick now :: rest) =
        Action.broadcastMerges :: Action.broadcastThreats ::
          (pic ++ runLoop upd (upd c now) rest) := by
  by_cases h : (c.enableAutomaticPicture && decide (c.pictureBroadcastDeadline < now)) = true
  · exact ⟨[Action.broadcastPicture], Or.inr rfl, by simp [runLoop, tickActions, h]⟩
  · exact ⟨[], Or.inl rfl, by simp [runLoop, tickActions, h]⟩

/-- C2: starting the frequency-segment loop of newVoicePacketFrom at its
actual initial index, the index is unchanged by any number of iterations and
the loop condition still holds after any number of iterations, so the loop
never exits. -/
theorem c2_frequency_loop_never_exits (b : List Nat) (n : Nat) :
    ((freqLoopStep b)^[n]
        { i := (newVoicePacketHead b).frequenciesOffset, Frequencies := [] }).i =
      (newVoicePacketHead b).frequenciesOffset ∧
    freqLoopGuard (newVoicePacketHead b).frequenciesOffset
      (newVoicePacketHead b).FrequenciesSegmentLength
      ((freqLoopStep b)^[n]
        { i := (newVoicePacketHead b).frequenciesOffset, Frequencies := [] }) = true := by
  refine ⟨freqLoopStep_iterate_i b n _, ?_⟩
  simp [freqLoopGuard, freqLoopStep_iterate_i]

/-- C3 counterexample: with the automatic picture enabled and the clock
exactly at the deadline (now = deadline = 100), the claimed condition
`enabled and now ≥ deadline` holds, yet the tick attempts no picture
broadcast: time.Now().After(deadline) is strict. -/
theorem c3_picture_boundary_counterexample :
    (boundaryController.enableAutomaticPicture = true ∧
      100 ≥ boundaryController.pictureBroadcastDeadline) ∧
    Action.broadcastPicture ∉ tickActions boundaryController 100 := by
  decide

/-- C3 amended: the automatic picture broadcast on a tick is attempted exactly
when enableAutomaticPicture is true and the current time is strictly after
pictureBroadcastDeadline; at the boundary instant now = deadline it is not
attempted. -/
theorem c3_picture_condition_amended (c : ControllerState) (now : Nat) :
    Action.broadcastPicture ∈ tickActions c now ↔
      c.enableAutomaticPicture = true ∧ c.pictureBroadcastDeadline < now := by
  by_cases h1 : c.enableAutomaticPicture = true
  · by_cases h2 : c.pictureBroadcastDeadline < now
    · simp [tickActions, h1, h2]
    · simp [tickActions, h1, h2]
  · simp [tickActions, h1]

/-- C4: the Run trace starts, before any loop event is processed, with sink
assignment, registration of the scope callbacks, exactly one SunriseCall whose
frequency list is the radio client frequency list in order, and creation of
the 15-second ticker; no other sunrise broadcast ever occurs. -/
theorem c4_run_startup (upd : ControllerState → Nat → ControllerState)
    (c : ControllerState) (rfs : List RadioFrequency) (events : List Event) :
    (runActions upd c rfs events).take 5 =
      [Action.assignSink, Action.setFadedCallback true, Action.setRemovedCallback true,
       Action.emitSunrise (rfs.map fun rf => rf.Frequency), Action.startTicker 15] ∧
    (runActions upd c rfs events).countP Action.isSunrise = 1 := by
  constructor
  · simp [runActions, sunriseFrequencies_eq_map]
  · simp [runActions, List.countP_cons, Action.isSunrise, runLoop_sunrise_count]

/-- C5: when the driving context is cancelled, the Run loop detaches the
faded, removed and started callbacks (in that order) and returns; whatever
events were still pending, nothing further is emitted or processed. -/
theorem c5_cancel_detaches_and_returns (upd : ControllerState → Nat → ControllerState)
    (c : ControllerState) (rest : List Event) :
    runLoop upd c (Event.cancel :: rest) =
      [Action.setFadedCallback false, Action.setRemovedCallback false,
       Action.setStartedCallback false, Action.ret] := rfl

/-- C6: findCallsign succeeds exactly when the scope returns a trackfile whose
last known point is non-zero; with no trackfile it returns ("", none, false);
with a trackfile at an unknown position it returns the found callsign, the
trackfile and false. -/
theorem c6_findCallsign_spec (find : String → Coalition → String × Option Trackfile)
    (coal : Coalition) (cs : String) :
    ((findCallsign find coal cs).2.2 = true ↔
      ∃ tf, (find cs coal).2 = some tf ∧ tf.isLastKnownPointZero = false) ∧
    ((find cs coal).2 = none → findCallsign find coal cs = ("", none, false)) ∧
    (∀ tf, (find cs coal).2 = some tf → tf.isLastKnownPointZero = true →
      findCallsign find coal cs = ((find cs coal).1, some tf, false)) := by
  rcases hr : find cs coal with ⟨name, tfo⟩
  cases tfo with
  | none => simp [findCallsign, hr]
  | some tf =>
    cases htf : tf.isLastKnownPointZero <;> simp [findCallsign, hr, htf]

/-- C7: for a successful alpha check, the response renders the supplied
bearing and distance exactly as given (whether or not the bearing is
magnetic), and a non-magnetic bearing produces exactly one error-level log
record while the response is still emitted. -/
theorem c7_alpha_check_forwards_bearing (c : Composer) (cs : String) (loc : Bullseye) :
    (ComposeAlphaCheckResponse c { Callsign := cs, Status := true, Location := loc }).2 =
      { Subtitle :=
          c.ComposeCallsigns [cs] ++ ", " ++ c.ComposeCallsigns [c.callsign] ++
            ", contact, alpha check bullseye " ++ c.bearingToString loc.bearing ++ "/" ++
            toString loc.distanceNM
        Speech :=
          c.ComposeCallsigns [cs] ++ ", " ++ c.ComposeCallsigns [c.callsign] ++
            ", contact, alpha check bullseye " ++ c.pronounceBearing loc.bearing ++ ", " ++
            toString loc.distanceNM } ∧
    (ComposeAlphaCheckResponse c { Callsign := cs, Status := true, Location := loc }).1 =
      (if loc.bearing.isMagnetic then [] else
        [{ level := LogLevel.error
           msg := "bearing provided to ComposeAlphaCheckResponse should be magnetic" }]) := by
  constructor
  · by_cases h : loc.bearing.isMagnetic <;> simp [ComposeAlphaCheckResponse, h]
  · by_cases h : loc.bearing.isMagnetic <;> simp [ComposeAlphaCheckResponse, h]

/-- C8: the negative radar contact response drawn for an alpha-check failure
has Subtitle equal to Speech, its text is one of the fixed templates formatted
with the composed requester callsign, and it begins with that callsign
followed by ", negative radar contact". -/
theorem c8_negative_radar_contact_variants (c : Composer) (cs : String) (seed : Nat) :
    (alphaCheckFailureReply c cs seed).Subtitle = (alphaCheckFailureReply c cs seed).Speech ∧
    (∃ t ∈ negativeRadarContactReplies,
      (alphaCheckFailureReply c cs seed).Speech = sprintf1 t (c.ComposeCallsigns [cs])) ∧
    (∃ suffix : String,
      (alphaCheckFailureReply c cs seed).Speech =
        c.ComposeCallsigns [cs] ++ (", negative radar contact" ++ suffix)) := by
  have hk : seed % negativeRadarContactReplies.length < negativeRadarContactReplies.length :=
    Nat.mod_lt _ (by decide)
  have hmem : negativeRadarContactReplies.getD (seed % negativeRadarContactReplies.length) "" ∈
      negativeRadarContactReplies := by
    rw [List.getD_eq_getElem _ _ hk]
    exact List.getElem_mem hk
  refine ⟨rfl, ⟨_, hmem, rfl⟩, ?_⟩
  obtain ⟨suffix, hs⟩ := negContact_template_shape _ hmem
  exact ⟨suffix, hs (c.ComposeCallsigns [cs])⟩

/-- C9: the threat call speech is the composed callsign list, ", ", then the
composed group speech unmodified; the subtitle is the composed callsign list,
", ", then the composed group subtitle with exactly its first character
lowercased and the rest unchanged. -/
theorem c9_threat_call_composition (c : Composer) (g : Group) (css : List String) :
    (ComposeThreatCall c { Group := g, Callsigns := css }).Speech =
      c.ComposeCallsigns css ++ ", " ++ (c.ComposeGroup g).Speech ∧
    (ComposeThreatCall c { Group := g, Callsigns := css }).Subtitle.data =
      (c.ComposeCallsigns css ++ ", ").data ++
        (match (c.ComposeGroup g).Subtitle.data with
          | [] => ([] : List Char)
          | ch :: rest => Char.toLower ch :: rest) := by
  refine ⟨rfl, ?_⟩
  rcases hsub : (c.ComposeGroup g).Subtitle with ⟨d⟩
  cases d <;>
    simp [ComposeThreatCall, applyToFirstCharacter, hsub, String.data_append]

/-- C10: for every input byte slice, the frequency segment offset computed by
newVoicePacketFrom equals 8 (it is computed from the zero-valued AudioLength
field before that field is decoded), and the parsed AudioBytes slice b[8:8] is
always empty, regardless of the audio length encoded in the packet. -/
theorem c10_audio_bytes_always_empty (b : List Nat) :
    (newVoicePacketHead b).frequenciesOffset = 8 ∧
    (newVoicePacketHead b).AudioBytes = [] := by
  exact ⟨rfl, rfl⟩

end Skyeye
